import Mathlib

set_option maxHeartbeats 1000000
set_option maxRecDepth 8000

/-!
Verification development for the riven-tui client.

This file shallowly embeds the core subsystems of the repository:
identity resolution (`src/api.py`, `RivenAPI.resolve_tmdb_id`), the
bounded-concurrency library probe and match aggregation
(`src/advanced_view.py`, `AdvancedView.on_scan`), the chunked bulk
executor (`src/advanced_view.py`, `AdvancedView.run_action`), and the
manual acquisition ("scrape") session workflow
(`src/riven_tui.py`, `_run_manual_scrape`, together with
`FileMappingScreen` in `src/modals.py`).

Python dynamic values are modelled by `PyVal`; remote endpoints are
modelled as oracle functions supplied as parameters, and each embedded
operation returns the list of remote calls it issued so that ordering
and cleanup properties can be stated about traces.
-/

/-! ## Python value model -/

/-- Model of a dynamically typed Python value as it appears in the JSON
dicts this client manipulates.  `vnone` stands both for an absent key
(`dict.get` returning `None`) and for an explicit `None` value. -/
inductive PyVal where
  | vnone
  | vint (n : Int)
  | vstr (s : String)
deriving DecidableEq, Repr

/-- Python truthiness of a `PyVal` (`if x:`). -/
def pyTruthy : PyVal → Bool
  | .vnone => false
  | .vint n => n != 0
  | .vstr s => s != ""

/-- Python `str(x)`. -/
def pyStr : PyVal → String
  | .vnone => "None"
  | .vint n => toString n
  | .vstr s => s

/-- Python `int(x)`: raises `TypeError` on `None` and `ValueError` on a
non-numeric string; the raised exception is modelled by `Except.error`. -/
def pyInt : PyVal → Except String Int
  | .vnone => .error "TypeError"
  | .vint n => .ok n
  | .vstr s =>
    match s.toInt? with
    | some n => .ok n
    | none => .error "ValueError"

/-- Python `a or b` (returns `a` when truthy, else `b`). -/
def pyOr (a b : PyVal) : PyVal := if pyTruthy a then a else b

/-- Conversion of `x` by `int(x)` cannot raise in the positions where the
code first checks `if x:` — true for ints and numeric strings. -/
def intOk : PyVal → Bool
  | .vnone => true
  | .vint _ => true
  | .vstr s => s.toInt?.isSome

/-- Conversion of `x` by `int(x)` cannot raise even without a truthiness
guard: `x` must be an int or a numeric string, not `None`. -/
def pyIntOk : PyVal → Bool
  | .vnone => false
  | .vint _ => true
  | .vstr s => s.toInt?.isSome

/-! ## Identity resolution (`RivenAPI.resolve_tmdb_id`, src/api.py lines 59-95) -/

/-- The `parent_ids` sub-dict of a Riven item, as consulted by
`resolve_tmdb_id`. -/
structure ParentIds where
  tmdb_id : PyVal := .vnone
  tvdb_id : PyVal := .vnone
  imdb_id : PyVal := .vnone
deriving DecidableEq, Repr

/-- The fields of a Riven item record that `resolve_tmdb_id` consults.
`parent_ids = none` models `"parent_ids" not in item`; `type_ = none`
models the `"type"` key being absent (so that `item.get("type", "movie")`
yields the default). -/
structure RItem where
  tmdb_id : PyVal := .vnone
  parent_ids : Option ParentIds := none
  type_ : Option PyVal := none
  tvdb_id : PyVal := .vnone
  imdb_id : PyVal := .vnone
  id : PyVal := .vnone
deriving DecidableEq, Repr

/-- The single external-registry lookup at the end of `resolve_tmdb_id`:
`if external_id: resolved_id, _ = await self.find_tmdb_id(str(external_id),
source_type, token); if resolved_id: return int(resolved_id)` followed by
`return None`.  The oracle `find` models `RivenAPI.find_tmdb_id`
(external id, source type) and returns the id it found, if any. -/
def lookupStep (find : String → String → Option Int) (ext : PyVal) (src : String) :
    Except String (Option Int) :=
  if pyTruthy ext then
    match find (pyStr ext) src with
    | some r => if r != 0 then .ok (some r) else .ok none
    | none => .ok none
  else .ok none

/-- Step 3 of `resolve_tmdb_id` (src/api.py lines 72-95): pick one external
id — `item.get("tvdb_id") or parent.tvdb_id` with source `"tvdb_id"`, else
`item.get("imdb_id") or parent.imdb_id` with source `"imdb_id"` — and when
neither exists fall back by kind: for shows the item's own id is used as a
TVDB id, for movies the item's own id is returned directly via `int(...)`.
Exactly one lookup is attempted; its failure falls through to `None`. -/
def resolveExternalLookup (find : String → String → Option Int) (item : RItem) :
    Except String (Option Int) :=
  let media_type := item.type_.getD (.vstr "movie")
  let ext0 := pyOr item.tvdb_id ((item.parent_ids.map ParentIds.tvdb_id).getD .vnone)
  let extSrc :=
    if !pyTruthy ext0 then
      (pyOr item.imdb_id ((item.parent_ids.map ParentIds.imdb_id).getD .vnone), "imdb_id")
    else (ext0, "tvdb_id")
  if !pyTruthy extSrc.1 then
    if media_type = .vstr "show" then lookupStep find item.id "tvdb_id"
    else if media_type = .vstr "movie" then (pyInt item.id).map some
    else lookupStep find extSrc.1 extSrc.2
  else lookupStep find extSrc.1 extSrc.2

/-- Embedding of `RivenAPI.resolve_tmdb_id` (src/api.py lines 59-95):
direct `tmdb_id` field, then `parent_ids.tmdb_id`, then the single
external lookup modelled by `resolveExternalLookup`.  A raised Python
exception (from `int(...)`) is an `Except.error`. -/
def resolve_tmdb_id (find : String → String → Option Int) (item : RItem) :
    Except String (Option Int) :=
  if pyTruthy item.tmdb_id then (pyInt item.tmdb_id).map some
  else
    match item.parent_ids with
    | some p =>
      if pyTruthy p.tmdb_id then (pyInt p.tmdb_id).map some
      else resolveExternalLookup find item
    | none => resolveExternalLookup find item

/-- The `tmdb_id` carried by the parent-identifiers record, if any. -/
def parentCatalog (item : RItem) : PyVal :=
  match item.parent_ids with
  | some p => p.tmdb_id
  | none => .vnone

/-- Registry-A (TVDB) id of a record: own field or the parent's. -/
def registryA (item : RItem) : PyVal :=
  pyOr item.tvdb_id ((item.parent_ids.map ParentIds.tvdb_id).getD .vnone)

/-- Registry-B (IMDB) id of a record: own field or the parent's. -/
def registryB (item : RItem) : PyVal :=
  pyOr item.imdb_id ((item.parent_ids.map ParentIds.imdb_id).getD .vnone)

/-- The record's declared kind, defaulting to `"movie"` as in
`item.get("type", "movie")`. -/
def mediaTypeOf (item : RItem) : PyVal := item.type_.getD (.vstr "movie")

/-- The fallback chain exactly as claim C3 words it: catalog field, parent
catalog field, lookup by registry-A id, then — when the registry-A id is
absent *or its lookup fails* — lookup by registry-B id, then the
kind-specific fallback; first success wins.  This definition follows the
claim, not the code, and is compared against `resolve_tmdb_id`. -/
def resolve_chain_claim (find : String → String → Option Int) (item : RItem) :
    Except String (Option Int) :=
  if pyTruthy item.tmdb_id then (pyInt item.tmdb_id).map some
  else if pyTruthy (parentCatalog item) then (pyInt (parentCatalog item)).map some
  else
    match (if pyTruthy (registryA item) then find (pyStr (registryA item)) "tvdb_id" else none) with
    | some r => .ok (some r)
    | none =>
      match (if pyTruthy (registryB item) then find (pyStr (registryB item)) "imdb_id" else none) with
      | some r => .ok (some r)
      | none =>
        if mediaTypeOf item = .vstr "show" then lookupStep find item.id "tvdb_id"
        else if mediaTypeOf item = .vstr "movie" then (pyInt item.id).map some
        else .ok none

/-- The chain the code actually implements (the amended claim C3): after
the two catalog-field steps, exactly one external lookup is attempted,
keyed by the registry-A id when present, otherwise by the registry-B id
when present, otherwise (shows only) by the internal id as a registry-A
key; movies with no external id at all convert the internal id directly.
A failed lookup falls through to unresolved without trying further keys. -/
def resolve_chain_amended (find : String → String → Option Int) (item : RItem) :
    Except String (Option Int) :=
  if pyTruthy item.tmdb_id then (pyInt item.tmdb_id).map some
  else if pyTruthy (parentCatalog item) then (pyInt (parentCatalog item)).map some
  else if pyTruthy (registryA item) then lookupStep find (registryA item) "tvdb_id"
  else if pyTruthy (registryB item) then lookupStep find (registryB item) "imdb_id"
  else if mediaTypeOf item = .vstr "show" then lookupStep find item.id "tvdb_id"
  else if mediaTypeOf item = .vstr "movie" then (pyInt item.id).map some
  else .ok none

theorem lookupStep_falsy (find : String → String → Option Int) (ext : PyVal) (src : String)
    (h : pyTruthy ext = false) : lookupStep find ext src = .ok none := by
  simp [lookupStep, h]

theorem c3_chains_eq_aux (find : String → String → Option Int) (item : RItem) :
    resolveExternalLookup find item =
      (if pyTruthy (registryA item) then lookupStep find (registryA item) "tvdb_id"
       else if pyTruthy (registryB item) then lookupStep find (registryB item) "imdb_id"
       else if mediaTypeOf item = .vstr "show" then lookupStep find item.id "tvdb_id"
       else if mediaTypeOf item = .vstr "movie" then (pyInt item.id).map some
       else .ok none) := by
  unfold resolveExternalLookup registryA registryB mediaTypeOf
  by_cases hA : pyTruthy (pyOr item.tvdb_id ((item.parent_ids.map ParentIds.tvdb_id).getD .vnone))
  · simp [hA]
  · by_cases hB : pyTruthy (pyOr item.imdb_id ((item.parent_ids.map ParentIds.imdb_id).getD .vnone))
    · simp [hA, hB]
    · have hA2 : pyTruthy (pyOr item.tvdb_id ((item.parent_ids.map ParentIds.tvdb_id).getD .vnone)) = false := by
        simpa using hA
      have hB2 : pyTruthy (pyOr item.imdb_id ((item.parent_ids.map ParentIds.imdb_id).getD .vnone)) = false := by
        simpa using hB
      by_cases hs : item.type_.getD (.vstr "movie") = .vstr "show" <;>
        by_cases hm : item.type_.getD (.vstr "movie") = .vstr "movie" <;>
          simp [hA2, hB2, hs, hm, lookupStep_falsy]

/-- Boolean success test for a modelled Python call: `true` unless the
call raised. -/
def exOk : Except String (Option Int) → Bool
  | .ok _ => true
  | .error _ => false

theorem exOk_map_some (e : Except String Int) : exOk (e.map some) = true ↔ (∃ n, e = .ok n) := by
  cases e <;> simp [exOk, Except.map]

theorem pyInt_ok_of_truthy (v : PyVal) (ht : pyTruthy v = true) (h : intOk v = true) :
    exOk ((pyInt v).map some) = true := by
  cases v with
  | vnone => simp [pyTruthy] at ht
  | vint n => simp [pyInt, exOk, Except.map]
  | vstr s =>
    simp only [intOk, Option.isSome] at h
    cases hi : s.toInt? with
    | none => rw [hi] at h; simp at h
    | some n => simp [pyInt, hi, exOk, Except.map]

theorem pyInt_ok_of_pyIntOk (v : PyVal) (h : pyIntOk v = true) :
    exOk ((pyInt v).map some) = true := by
  cases v with
  | vnone => simp [pyIntOk] at h
  | vint n => simp [pyInt, exOk, Except.map]
  | vstr s =>
    simp only [pyIntOk, Option.isSome] at h
    cases hi : s.toInt? with
    | none => rw [hi] at h; simp at h
    | some n => simp [pyInt, hi, exOk, Except.map]

theorem lookupStep_ok (find : String → String → Option Int) (ext : PyVal) (src : String) :
    exOk (lookupStep find ext src) = true := by
  unfold lookupStep
  by_cases h : pyTruthy ext
  · simp only [h, if_true]
    cases find (pyStr ext) src with
    | none => simp [exOk]
    | some r => by_cases hr : r != 0 <;> simp [hr, exOk]
  · simp [h, exOk]

theorem c9_aux (find : String → String → Option Int) (item : RItem)
    (h3 : item.type_.getD (.vstr "movie") = .vstr "movie" → pyIntOk item.id = true) :
    exOk (resolveExternalLookup find item) = true := by
  unfold resolveExternalLookup
  by_cases h0 : pyTruthy (pyOr item.tvdb_id ((item.parent_ids.map ParentIds.tvdb_id).getD .vnone))
  · simp [h0, lookupStep_ok]
  · by_cases hB : pyTruthy (pyOr item.imdb_id ((item.parent_ids.map ParentIds.imdb_id).getD .vnone))
    · simp [h0, hB, lookupStep_ok]
    · by_cases hs : item.type_.getD (.vstr "movie") = .vstr "show"
      · simp [h0, hB, hs, lookupStep_ok]
      · by_cases hm : item.type_.getD (.vstr "movie") = .vstr "movie"
        · simp [h0, hB, hs, hm, pyInt_ok_of_pyIntOk _ (h3 hm)]
        · simp [h0, hB, hs, hm, lookupStep_ok]

/-- Claim C3 (corrected), amendment: for every input record, identity
resolution tries the direct catalog-ID field, then the parent-identifiers
catalog-ID field, and then performs at most one external lookup, keyed by
the registry-A (TVDB) id when present (own or parent's), otherwise by the
registry-B (IMDB) id when present (own or parent's), otherwise — shows
only — by the internal id used as a registry-A key; a movie with no
external id at all has its internal id converted directly to the catalog
id.  A failed lookup returns the unresolved signal without trying any
further key.  Stated as: the code equals this amended chain on all inputs
and oracles. -/
theorem c3_resolution_order_amended (find : String → String → Option Int) (item : RItem) :
    resolve_tmdb_id find item = resolve_chain_amended find item := by
  unfold resolve_tmdb_id resolve_chain_amended
  by_cases h1 : pyTruthy item.tmdb_id
  · simp [h1]
  · simp only [h1, if_false, Bool.false_eq_true]
    cases hp : item.parent_ids with
    | none =>
      have hpc : parentCatalog item = .vnone := by simp [parentCatalog, hp]
      rw [c3_chains_eq_aux]
      simp [hpc, pyTruthy]
    | some p =>
      have hpc : parentCatalog item = p.tmdb_id := by simp [parentCatalog, hp]
      by_cases h2 : pyTruthy p.tmdb_id
      · simp [hpc, h2]
      · rw [c3_chains_eq_aux]
        simp [hpc, h2]

/-- Concrete record refuting claim C3 as stated: both registry ids are
present, the registry-A (TVDB) lookup fails and the registry-B (IMDB)
lookup would succeed. -/
def c3Item : RItem :=
  { tmdb_id := .vnone, parent_ids := none, type_ := some (.vstr "movie"),
    tvdb_id := .vstr "100", imdb_id := .vstr "tt5", id := .vint 1 }

/-- Lookup oracle for the C3 counterexample: the TVDB key resolves to
nothing, the IMDB key resolves to catalog id 77. -/
def c3Find : String → String → Option Int :=
  fun e s => if s == "imdb_id" && e == "tt5" then some 77 else none

/-- Claim C3 counterexample: on `c3Item` the chain the claim describes
(fall through to the registry-B lookup when the registry-A lookup fails)
returns catalog id 77, but `resolve_tmdb_id` returns the unresolved
signal — the code never consults the registry-B id once a registry-A id
is present, so the claimed order is not what the code implements. -/
theorem c3_counterexample :
    resolve_chain_claim c3Find c3Item = .ok (some 77) ∧
      resolve_tmdb_id c3Find c3Item = .ok none := by
  exact ⟨rfl, rfl⟩

/-- Claim C9 (corrected), amendment: identity resolution terminates with a
single catalog ID or the explicit unresolved signal and raises no
exception, *provided* the catalog-id fields it converts hold integers (or
numeric strings) and — for a record whose kind is movie, or defaults to
movie — the internal id is present and numeric; without that proviso the
unguarded `int(...)` conversions can raise (`c9_counterexample`). -/
theorem c9_no_exception_amended (find : String → String → Option Int) (item : RItem)
    (h1 : intOk item.tmdb_id = true) (h2 : intOk (parentCatalog item) = true)
    (h3 : mediaTypeOf item = .vstr "movie" → pyIntOk item.id = true) :
    exOk (resolve_tmdb_id find item) = true := by
  have h3a : item.type_.getD (.vstr "movie") = .vstr "movie" → pyIntOk item.id = true := by
    simpa [mediaTypeOf] using h3
  unfold resolve_tmdb_id
  by_cases ht : pyTruthy item.tmdb_id
  · simpa [ht] using pyInt_ok_of_truthy _ ht h1
  · simp only [ht, if_false, Bool.false_eq_true]
    cases hp : item.parent_ids with
    | none => exact c9_aux find item h3a
    | some p =>
      have hpc : parentCatalog item = p.tmdb_id := by simp [parentCatalog, hp]
      by_cases h2t : pyTruthy p.tmdb_id
      · simpa [h2t] using pyInt_ok_of_truthy _ h2t (hpc ▸ h2)
      · simpa [h2t] using c9_aux find item h3a

/-- Witness for `c9_no_exception_amended` at a concrete record (a show
whose `tmdb_id` field is the integer 5): the hypotheses hold and
resolution succeeds without raising. -/
theorem c9_witness :
    intOk (RItem.tmdb_id { tmdb_id := .vint 5, type_ := some (.vstr "show") }) = true ∧
      exOk (resolve_tmdb_id (fun _ _ => none)
        { tmdb_id := .vint 5, type_ := some (.vstr "show") }) = true :=
  ⟨by decide, c9_no_exception_amended (fun _ _ => none)
    { tmdb_id := .vint 5, type_ := some (.vstr "show") }
    (by decide) (by decide) (by decide)⟩

/-- Claim C9 counterexample: on the empty record (kind defaults to movie,
no identifiers at all) the movie fallback executes `int(item.get("id"))`
= `int(None)`, which raises `TypeError` — resolution does not always
terminate with a catalog id or the unresolved signal. -/
theorem c9_counterexample :
    resolve_tmdb_id (fun _ _ => none) {} = .error "TypeError" := rfl

/-! ## Chunked bulk execution (`AdvancedView.run_action`, src/advanced_view.py lines 445-521) -/

/-- The chunking of `for i in range(0, count, batch_size): batch =
actionable_ids[i:i + batch_size]`: for a positive step the loop runs
`ceil(count / size)` times and the `k`-th slice is
`ids[k*size : k*size + size]`. -/
def pyChunks {α : Type} (ids : List α) (size : Nat) : List (List α) :=
  (List.range ((ids.length + size - 1) / size)).map
    (fun k => (ids.drop (k * size)).take size)

theorem pyChunks_nil {α : Type} (size : Nat) : pyChunks ([] : List α) size = [] := by
  have h : (size - 1) / size = 0 := by
    cases size with
    | zero => simp
    | succ s => exact Nat.div_eq_of_lt (by omega)
  simp [pyChunks, h]

theorem pyChunks_cons {α : Type} (ids : List α) (size : Nat) (hs : 0 < size)
    (hne : ids ≠ []) : pyChunks ids size = ids.take size :: pyChunks (ids.drop size) size := by
  have hn : 0 < ids.length := List.length_pos.mpr hne
  have hceil : (ids.length + size - 1) / size = (ids.length - 1) / size + 1 := by
    have h1 : ids.length + size - 1 = (ids.length - 1) + size := by omega
    rw [h1, Nat.add_div_right _ hs]
  have hceil2 : ((ids.drop size).length + size - 1) / size = (ids.length - 1) / size := by
    rw [List.length_drop]
    rcases le_or_lt ids.length size with hle | hgt
    · have h1 : ids.length - size = 0 := by omega
      rw [h1]
      rw [Nat.div_eq_of_lt (by omega), Nat.div_eq_of_lt (by omega)]
    · have h1 : ids.length - size + size - 1 = (ids.length - size - 1) + size := by omega
      have h2 : ids.length - 1 = (ids.length - size - 1) + size := by omega
      rw [h1, Nat.add_div_right _ hs]
      conv_rhs => rw [h2, Nat.add_div_right _ hs]
  unfold pyChunks
  rw [hceil, List.range_succ_eq_map, List.map_cons]
  congr 1
  · simp
  · rw [List.map_map, hceil2]
    apply List.map_congr_left
    intro k _
    simp only [Function.comp_apply]
    rw [List.drop_drop]
    congr 2
    rw [Nat.succ_mul]
    ring

theorem pyChunks_length {α : Type} (ids : List α) (size : Nat) :
    (pyChunks ids size).length = (ids.length + size - 1) / size := by
  simp [pyChunks]

theorem pyChunks_join {α : Type} (size : Nat) (hs : 0 < size) :
    ∀ (n : Nat) (ids : List α), ids.length ≤ n → (pyChunks ids size).flatten = ids := by
  intro n
  induction n with
  | zero =>
    intro ids hlen
    have : ids = [] := List.eq_nil_of_length_eq_zero (by omega)
    simp [this, pyChunks_nil]
  | succ m ih =>
    intro ids hlen
    rcases eq_or_ne ids [] with rfl | hne
    · simp [pyChunks_nil]
    · rw [pyChunks_cons ids size hs hne]
      have hn : 0 < ids.length := List.length_pos.mpr hne
      have : (ids.drop size).length ≤ m := by
        rw [List.length_drop]; omega
      simp only [List.flatten_cons, ih _ this]
      exact List.take_append_drop size ids

/-- Byte-wise prefix test on character lists (helper for the Python `in`
substring operator). -/
def matchHere : List Char → List Char → Bool
  | [], _ => true
  | _ :: _, [] => false
  | a :: as, b :: bs => a == b && matchHere as bs

/-- Substring occurrence test on character lists: does the second list
occur contiguously in the first? -/
def charsContains : List Char → List Char → Bool
  | [], pat => pat.isEmpty
  | a :: rest, pat => matchHere pat (a :: rest) || charsContains rest pat

/-- Python's `pat in s` substring operator. -/
def strContains (s pat : String) : Bool := charsContains s.data pat.data

/-- Left-to-right, non-overlapping replacement of `pat` by `rep`, fuelled
so that it is structural recursion.  Matches Python `str.replace` for a
non-empty pattern (the ids substituted here are non-empty strings). -/
def charsReplaceGo (pat rep : List Char) : Nat → List Char → List Char
  | 0, s => s
  | _ + 1, [] => []
  | fuel + 1, a :: rest =>
    if matchHere pat (a :: rest) && !pat.isEmpty then
      rep ++ charsReplaceGo pat rep fuel ((a :: rest).drop pat.length)
    else a :: charsReplaceGo pat rep fuel rest

/-- Python `s.replace(pat, rep)` for a non-empty `pat`. -/
def strReplace (s pat rep : String) : String :=
  ⟨charsReplaceGo pat.data rep.data s.data.length s.data⟩

/-- The error-annotation loop of `run_action` (src/advanced_view.py lines
505-509): `for item_id in batch: if item_id in error_msg: error_msg =
error_msg.replace(item_id, f"{item_id} - {title}")`, with `title` the
display title known for that id. -/
def annotateMsg (titles : String → String) (msg : String) (batch : List String) : String :=
  batch.foldl
    (fun m i => if strContains m i then strReplace m i (i ++ " - " ++ titles i) else m) msg

/-- Aggregate result of the batched loop of `run_action`: the chunks
executed, the success/fail counters, the per-chunk error log lines, and
the final status line shown to the user. -/
structure RunActionResult where
  executed : List (List String)
  successCount : Nat
  failCount : Nat
  logs : List String
  statusLine : String
deriving DecidableEq, Repr

/-- One iteration of the batched loop of `run_action` (src/advanced_view.py
lines 496-510): on success add the batch size to `success_count`; on
failure add it to `fail_count` and log the annotated error message.  The
`outcome` oracle gives the `(success, msg)` pair returned by
`api.bulk_action` for each chunk index. -/
def runActionStep (displayName : String) (outcome : Nat → Bool × String)
    (titles : String → String) (acc : Nat × Nat × List String) (kb : Nat × List String) :
    Nat × Nat × List String :=
  if (outcome kb.1).1 then (acc.1 + kb.2.length, acc.2.1, acc.2.2)
  else (acc.1, acc.2.1 + kb.2.length,
        acc.2.2 ++ ["Mass " ++ displayName ++ " Error: "
          ++ annotateMsg titles (outcome kb.1).2 kb.2])

/-- Embedding of the batched-execution part of `AdvancedView.run_action`
(src/advanced_view.py lines 490-513): chunk the actionable ids with
`batch_size = 50`, execute the chunks sequentially in order, count
successes and failures by chunk, log annotated errors, and build the
final status line -- which renders `success_count` and the unsupported
count but not `fail_count`. -/
def run_action (displayName : String) (outcome : Nat → Bool × String)
    (titles : String → String) (ids : List String) (unsupportedCount : Nat) :
    RunActionResult :=
  let cs := pyChunks ids 50
  let r := cs.enum.foldl (runActionStep displayName outcome titles) (0, 0, [])
  { executed := cs, successCount := r.1, failCount := r.2.1, logs := r.2.2,
    statusLine := "[bold green]Complete: " ++ toString r.1 ++ " Roots processed. "
      ++ toString unsupportedCount ++ " Unsupported skipped.[/]" }

/-- Total size of the chunks whose remote call succeeded. -/
def chunkSuccTotal (outcome : Nat → Bool × String) (l : List (Nat × List String)) : Nat :=
  ((l.filter (fun kb => (outcome kb.1).1)).map (fun kb => kb.2.length)).sum

/-- Total size of the chunks whose remote call failed. -/
def chunkFailTotal (outcome : Nat → Bool × String) (l : List (Nat × List String)) : Nat :=
  ((l.filter (fun kb => !(outcome kb.1).1)).map (fun kb => kb.2.length)).sum

/-- The log lines produced for the failed chunks, in order. -/
def chunkFailLogs (displayName : String) (outcome : Nat → Bool × String)
    (titles : String → String) (l : List (Nat × List String)) : List String :=
  (l.filter (fun kb => !(outcome kb.1).1)).map
    (fun kb => "Mass " ++ displayName ++ " Error: "
      ++ annotateMsg titles (outcome kb.1).2 kb.2)

theorem run_action_foldl (dn : String) (outcome : Nat → Bool × String)
    (titles : String → String) :
    ∀ (l : List (Nat × List String)) (acc : Nat × Nat × List String),
      l.foldl (runActionStep dn outcome titles) acc =
        (acc.1 + chunkSuccTotal outcome l,
         acc.2.1 + chunkFailTotal outcome l,
         acc.2.2 ++ chunkFailLogs dn outcome titles l) := by
  intro l
  induction l with
  | nil =>
    intro acc
    simp [chunkSuccTotal, chunkFailTotal, chunkFailLogs]
  | cons kb rest ih =>
    intro acc
    rw [List.foldl_cons, ih]
    by_cases h : (outcome kb.1).1 <;>
      simp [runActionStep, h, chunkSuccTotal, chunkFailTotal, chunkFailLogs,
        List.filter_cons, Nat.add_assoc]

/-- Claim C6 (confirmed): for every ID sequence and every positive chunk
size (the code uses `batch_size = 50`), the bulk executor partitions the
ids into exactly `ceil(len(ids)/chunkSize)` chunks — `(n + size - 1) / size`
in natural division — whose concatenation equals the ids in the original
order, and `run_action` executes exactly those chunks, one remote call per
chunk, sequentially in list order (the fold in `run_action` processes
`pyChunks ids 50` left to right). -/
theorem c6_chunking (ids : List String) (size : Nat) (h : 0 < size) :
    (pyChunks ids size).length = (ids.length + size - 1) / size ∧
      (pyChunks ids size).flatten = ids ∧
      (∀ dn outcome titles u,
        (run_action dn outcome titles ids u).executed = pyChunks ids 50) :=
  ⟨pyChunks_length ids size, pyChunks_join size h ids.length ids le_rfl,
    fun _ _ _ _ => rfl⟩

/-- Witness for `c6_chunking` at a concrete input: three ids with chunk
size 2 give chunks `[[a, b], [c]]`. -/
theorem c6_witness :
    0 < 2 ∧ (pyChunks ["a", "b", "c"] 2).flatten = ["a", "b", "c"] ∧
      pyChunks ["a", "b", "c"] 2 = [["a", "b"], ["c"]] :=
  ⟨by decide, (c6_chunking ["a", "b", "c"] 2 (by decide)).2.1, by decide⟩

/-- The 120-id scenario of claim C7: ids `id0 … id119`, chunk size 50
(three chunks of sizes 50, 50, 20), where only the second chunk
(index 1) fails. -/
def c7Ids : List String := (List.range 120).map (fun k => "id" ++ toString k)

/-- Per-chunk outcomes for the C7 scenario: chunk 1 fails with message
`"chunk boom"`, chunks 0 and 2 succeed. -/
def c7Outcome : Nat → Bool × String := fun k => if k == 1 then (false, "chunk boom") else (true, "ok")

/-- Display titles known for the ids in the C7 scenario. -/
def c7Titles : String → String := fun i => "T" ++ i

/-- The C7 scenario run of the bulk executor. -/
def c7Run : RunActionResult := run_action "Delete" c7Outcome c7Titles c7Ids 0

/-- Claim C7 (corrected), amendment: a chunk failure never stops the
remaining chunks (every chunk of `pyChunks ids 50` is executed); each
failed chunk's error message has the ID literals it mentions annotated
with their display titles by string substitution and is captured as a log
line; and the executor's counters aggregate succeeded and failed items
per chunk outcome — in the 120-id scenario with only chunk 2 failing,
`success_count = 70` and `fail_count = 50`.  However the *final report
line* renders only the succeeded count: `fail_count` is never displayed
(see `c7_counterexample`); failures are surfaced through the per-chunk
log lines instead. -/
theorem c7_bulk_report_amended :
    (∀ dn outcome titles ids u,
      (run_action dn outcome titles ids u).executed = pyChunks ids 50 ∧
      (run_action dn outcome titles ids u).successCount
        = chunkSuccTotal outcome (pyChunks ids 50).enum ∧
      (run_action dn outcome titles ids u).failCount
        = chunkFailTotal outcome (pyChunks ids 50).enum ∧
      (run_action dn outcome titles ids u).logs
        = chunkFailLogs dn outcome titles (pyChunks ids 50).enum) ∧
    c7Run.successCount = 70 ∧ c7Run.failCount = 50 ∧
    c7Run.statusLine = "[bold green]Complete: 70 Roots processed. 0 Unsupported skipped.[/]" ∧
    c7Run.logs = ["Mass Delete Error: chunk boom"] ∧
    annotateMsg c7Titles "Error: id7 failed" ["id6", "id7"] = "Error: id7 - Tid7 failed" := by
  refine ⟨fun dn outcome titles ids u => ⟨rfl, ?_, ?_, ?_⟩, rfl, rfl, rfl, rfl, rfl⟩ <;>
    simp [run_action, run_action_foldl]

/-- Claim C7 counterexample: in the 120-id scenario the executor counts
70 succeeded and 50 failed, but the final report line shown to the user
is `"[bold green]Complete: 70 Roots processed. 0 Unsupported skipped.[/]"`,
which does not contain the failed count (no substring `"50"`): the claim
that the report shows `failed = 50` is false — `fail_count` is computed
and then never rendered anywhere in the final status. -/
theorem c7_counterexample :
    c7Run.successCount = 70 ∧ c7Run.failCount = 50 ∧
      strContains c7Run.statusLine "50" = false :=
  ⟨rfl, rfl, rfl⟩

/-! ## Library scan and match aggregation (`AdvancedView.on_scan`, src/advanced_view.py lines 261-374) -/

/-- A library item as returned by the Riven backend to a probe: the
fields `process_match` reads.  `type_ = none` models the `"type"` key
being absent (`item.get("type", "unknown")` then defaults), likewise
`title = none` for `item.get("title", "Unknown")`. -/
structure LibItem where
  id : PyVal
  type_ : Option PyVal := none
  title : Option String := none
deriving DecidableEq, Repr

/-- A watchlist (MDBList) candidate as consumed by the probes: the
`imdb_id`/`tvdb_id` keys read by `probe_movie`/`probe_show` and the
`title` used for the missing column. -/
structure MdbItem where
  imdb_id : PyVal := .vnone
  tvdb_id : PyVal := .vnone
  title : Option String := none
deriving DecidableEq, Repr

/-- A remote call made by a probe. -/
inductive ProbeCall where
  | getItemsSearch (q : String)
  | getItemById (mediaType : String) (mediaId : String)
deriving DecidableEq, Repr

/-- Embedding of `probe_movie` (src/advanced_view.py lines 300-306): if
the candidate has no `imdb_id` return `None` without any remote call;
otherwise search the library by that id (the oracle `findMovie` models
`get_items(search=imdb_id, limit=1)` returning the first item, if any). -/
def probe_movie (findMovie : String → Option LibItem) (m : MdbItem) :
    List ProbeCall × Option LibItem :=
  if pyTruthy m.imdb_id then
    ([.getItemsSearch (pyStr m.imdb_id)], findMovie (pyStr m.imdb_id))
  else ([], none)

/-- Embedding of `probe_show` (src/advanced_view.py lines 308-314): if the
candidate has no `tvdb_id` return `None` without any remote call;
otherwise fetch by id (the oracle `findShow` models
`get_item_by_id("tv", str(tvdb_id))`). -/
def probe_show (findShow : String → Option LibItem) (s : MdbItem) :
    List ProbeCall × Option LibItem :=
  if pyTruthy s.tvdb_id then
    ([.getItemById "tv" (pyStr s.tvdb_id)], findShow (pyStr s.tvdb_id))
  else ([], none)

/-- Python dict insertion `matched_items[i_id] = item`: an existing key
keeps its position and has its value overwritten; a new key is appended.
This is the MatchSet accumulation of `process_match`. -/
def dictInsert (d : List (String × LibItem)) (k : String) (v : LibItem) :
    List (String × LibItem) :=
  if d.any (fun p => p.1 == k) then d.map (fun p => if p.1 == k then (k, v) else p)
  else d ++ [(k, v)]

/-- First value stored under a key (Python dict lookup). -/
def dictGet (d : List (String × LibItem)) (k : String) : Option LibItem :=
  match d.find? (fun p => p.1 == k) with
  | some p => some p.2
  | none => none

/-- The scan state accumulated by `on_scan` step 3: the MatchSet
(`matched_items`), the four display columns (titles in append order) and
the four counters. -/
structure ScanOut where
  matched : List (String × LibItem)
  rootTitles : List String
  seasonTitles : List String
  episodeTitles : List String
  missingTitles : List String
  rootCount : Nat
  seasonCount : Nat
  episodeCount : Nat
  missingCount : Nat
deriving DecidableEq, Repr

/-- The empty scan state (all lists cleared, counters zero). -/
def scanInit : ScanOut := ⟨[], [], [], [], [], 0, 0, 0, 0⟩

/-- Embedding of `process_match` (src/advanced_view.py lines 327-344):
insert the item into `matched_items` keyed by `str(item["id"])`
(overwriting any previous value under that key), then route its title to
the root/season/episode column by type and bump that counter; items of
any other type are stored in the MatchSet but not displayed or counted. -/
def processMatch (st : ScanOut) (item : LibItem) : ScanOut :=
  let iId := pyStr item.id
  let iType := item.type_.getD (.vstr "unknown")
  let matched := dictInsert st.matched iId item
  let title := item.title.getD "Unknown"
  if iType = .vstr "movie" ∨ iType = .vstr "show" then
    { st with matched := matched, rootTitles := st.rootTitles ++ [title],
              rootCount := st.rootCount + 1 }
  else if iType = .vstr "season" then
    { st with matched := matched, seasonTitles := st.seasonTitles ++ [title],
              seasonCount := st.seasonCount + 1 }
  else if iType = .vstr "episode" then
    { st with matched := matched, episodeTitles := st.episodeTitles ++ [title],
              episodeCount := st.episodeCount + 1 }
  else
    { st with matched := matched }

/-- Processing of one candidate/result pair in the result loops of
`on_scan` (lines 347-366): a found item goes through `process_match`, a
missing one appends the candidate's title to the missing column with the
given default (`"Unknown Movie"` / `"Unknown Show"`). -/
def processOne (missDefault : String) (st : ScanOut) (pr : MdbItem × Option LibItem) :
    ScanOut :=
  match pr.2 with
  | some item => processMatch st item
  | none =>
    { st with missingTitles := st.missingTitles ++ [pr.1.title.getD missDefault],
              missingCount := st.missingCount + 1 }

/-- Embedding of steps 3-4 of `on_scan`: process the movie results in
watchlist order, then the show results in watchlist order. -/
def processScan (movies : List (MdbItem × Option LibItem))
    (shows : List (MdbItem × Option LibItem)) : ScanOut :=
  shows.foldl (processOne "Unknown Show") (movies.foldl (processOne "Unknown Movie") scanInit)

theorem processMatch_missingTitles (st : ScanOut) (item : LibItem) :
    (processMatch st item).missingTitles = st.missingTitles := by
  unfold processMatch
  dsimp only
  split_ifs <;> rfl

theorem processMatch_missingCount (st : ScanOut) (item : LibItem) :
    (processMatch st item).missingCount = st.missingCount := by
  unfold processMatch
  dsimp only
  split_ifs <;> rfl

theorem processMatch_matched (st : ScanOut) (item : LibItem) :
    (processMatch st item).matched = dictInsert st.matched (pyStr item.id) item := by
  unfold processMatch
  dsimp only
  split_ifs <;> rfl

/-- The missing-column contributions of a candidate/result list: the
titles of the candidates whose probe returned nothing, in input order. -/
def missContrib (d : String) (l : List (MdbItem × Option LibItem)) : List String :=
  l.filterMap (fun pr =>
    match pr.2 with
    | some _ => none
    | none => some (pr.1.title.getD d))

theorem foldl_processOne_missing (d : String) :
    ∀ (l : List (MdbItem × Option LibItem)) (st : ScanOut),
      (l.foldl (processOne d) st).missingTitles = st.missingTitles ++ missContrib d l := by
  intro l
  induction l with
  | nil => intro st; simp [missContrib]
  | cons pr rest ih =>
    intro st
    rw [List.foldl_cons, ih]
    cases h : pr.2 with
    | some item =>
      simp [processOne, h, missContrib, processMatch_missingTitles]
    | none =>
      simp [processOne, h, missContrib]

theorem foldl_processOne_missingCount (d : String) :
    ∀ (l : List (MdbItem × Option LibItem)) (st : ScanOut),
      (l.foldl (processOne d) st).missingCount = st.missingCount + (missContrib d l).length := by
  intro l
  induction l with
  | nil => intro st; simp [missContrib]
  | cons pr rest ih =>
    intro st
    rw [List.foldl_cons, ih]
    cases h : pr.2 with
    | some item =>
      simp [processOne, h, missContrib, processMatch_missingCount]
    | none =>
      simp [processOne, h, missContrib, Nat.add_assoc, Nat.add_comm 1]

theorem dictInsert_keys (d : List (String × LibItem)) (k : String) (v : LibItem) :
    (dictInsert d k v).map Prod.fst =
      if d.any (fun p => p.1 == k) then d.map Prod.fst else d.map Prod.fst ++ [k] := by
  unfold dictInsert
  split
  · rw [List.map_map]
    apply List.map_congr_left
    intro p _
    by_cases h : p.1 == k
    · simp only [Function.comp_apply, h, if_true]
      exact (eq_of_beq h).symm
    · have hh : ¬ p.1 = k := by simpa using h
      simp [Function.comp_apply, hh]
  · simp

theorem dictInsert_keys_nodup (d : List (String × LibItem)) (k : String) (v : LibItem)
    (h : (d.map Prod.fst).Nodup) : ((dictInsert d k v).map Prod.fst).Nodup := by
  rw [dictInsert_keys]
  split
  · exact h
  · next hany =>
    have hnk : k ∉ d.map Prod.fst := by
      intro hk
      rcases List.mem_map.mp hk with ⟨p, hp, hpk⟩
      exact hany (List.any_eq_true.mpr ⟨p, hp, by simp [hpk]⟩)
    simp [List.nodup_append, h, hnk]

theorem dictInsert_length_mem (d : List (String × LibItem)) (k : String) (v : LibItem)
    (h : d.any (fun p => p.1 == k) = true) : (dictInsert d k v).length = d.length := by
  simp [dictInsert, h]

theorem find_replace (k : String) (v : LibItem) :
    ∀ (d : List (String × LibItem)), d.any (fun p => p.1 == k) = true →
      (d.map (fun p => if p.1 == k then (k, v) else p)).find? (fun p => p.1 == k)
        = some (k, v) := by
  intro d
  induction d with
  | nil => intro h; simp at h
  | cons p rest ih =>
    intro hany
    by_cases hp : p.1 == k
    · have hrepl : (if p.1 == k then (k, v) else p) = (k, v) := by simp [hp]
      simp only [List.map_cons, hrepl]
      rw [List.find?_cons_of_pos]
      simp
    · have hrepl : (if p.1 == k then (k, v) else p) = p := by simp [hp]
      have hrest : rest.any (fun q => q.1 == k) = true := by
        rcases List.any_eq_true.mp hany with ⟨q, hq, hqk⟩
        rcases List.mem_cons.mp hq with rfl | hq2
        · exact absurd hqk (by simpa using hp)
        · exact List.any_eq_true.mpr ⟨q, hq2, hqk⟩
      simp only [List.map_cons, hrepl]
      rw [List.find?_cons_of_neg]
      · exact ih hrest
      · simpa using hp

theorem find_append_single (k : String) (v : LibItem) :
    ∀ (d : List (String × LibItem)), d.find? (fun p => p.1 == k) = none →
      (d ++ [(k, v)]).find? (fun p => p.1 == k) = some (k, v) := by
  intro d
  induction d with
  | nil =>
    intro _
    rw [List.nil_append]
    rw [List.find?_cons_of_pos]
    simp
  | cons p rest ih =>
    intro h
    by_cases hp : p.1 == k
    · simp [hp] at h
    · rw [List.find?_cons_of_neg] at h
      · rw [List.cons_append, List.find?_cons_of_neg]
        · exact ih h
        · simpa using hp
      · simpa using hp

theorem dictGet_dictInsert (d : List (String × LibItem)) (k : String) (v : LibItem) :
    dictGet (dictInsert d k v) k = some v := by
  unfold dictInsert dictGet
  by_cases hany : d.any (fun p => p.1 == k)
  · rw [if_pos hany, find_replace k v d hany]
  · rw [if_neg hany]
    have hnone : d.find? (fun p => p.1 == k) = none := by
      rw [List.find?_eq_none]
      intro p hp
      intro hpk
      exact (by simpa using hany : ¬ d.any (fun p => p.1 == k) = true)
        (List.any_eq_true.mpr ⟨p, hp, hpk⟩)
    rw [find_append_single k v d hnone]

theorem foldl_processOne_keys_nodup (d : String) :
    ∀ (l : List (MdbItem × Option LibItem)) (st : ScanOut),
      (st.matched.map Prod.fst).Nodup →
        ((l.foldl (processOne d) st).matched.map Prod.fst).Nodup := by
  intro l
  induction l with
  | nil => intro st h; simpa using h
  | cons pr rest ih =>
    intro st h
    rw [List.foldl_cons]
    apply ih
    cases hr : pr.2 with
    | some item =>
      simp only [processOne, hr, processMatch_matched]
      exact dictInsert_keys_nodup _ _ _ h
    | none => simpa [processOne, hr] using h

theorem processScan_keys_nodup (movies shows : List (MdbItem × Option LibItem)) :
    ((processScan movies shows).matched.map Prod.fst).Nodup := by
  unfold processScan
  apply foldl_processOne_keys_nodup
  apply foldl_processOne_keys_nodup
  simp [scanInit]

/-- Claim C5 (corrected), amendment: the MatchSet key set never contains
duplicates and re-feeding an already-present internal id leaves the
number of entries unchanged, but the stored record (hence its title) is
*overwritten* — `matched_items[i_id] = item` is last-write-wins, not
first-write-wins. -/
theorem c5_dedup_amended :
    (∀ movies shows : List (MdbItem × Option LibItem),
      ((processScan movies shows).matched.map Prod.fst).Nodup) ∧
    (∀ (d : List (String × LibItem)) (k : String) (v : LibItem),
      k ∈ d.map Prod.fst →
        (dictInsert d k v).length = d.length ∧ dictGet (dictInsert d k v) k = some v) := by
  refine ⟨processScan_keys_nodup, fun d k v hk => ⟨?_, dictGet_dictInsert d k v⟩⟩
  apply dictInsert_length_mem
  rcases List.mem_map.mp hk with ⟨p, hp, hpk⟩
  exact List.any_eq_true.mpr ⟨p, hp, by simp [hpk]⟩

/-- The two probe results used in the C5 counterexample: the same
internal id 7, first under title `"A"`, then under title `"B"`. -/
def c5ItemA : LibItem := ⟨.vint 7, some (.vstr "movie"), some "A"⟩

/-- Second record of the C5 counterexample (same id, different title). -/
def c5ItemB : LibItem := ⟨.vint 7, some (.vstr "movie"), some "B"⟩

/-- Witness for `c5_dedup_amended` at a concrete MatchSet: re-inserting
key `"7"` keeps one entry and stores the new record. -/
theorem c5_witness :
    "7" ∈ [("7", c5ItemA)].map Prod.fst ∧
      (dictInsert [("7", c5ItemA)] "7" c5ItemB).length = 1 ∧
      dictGet (dictInsert [("7", c5ItemA)] "7" c5ItemB) "7" = some c5ItemB :=
  ⟨by decide, (c5_dedup_amended.2 [("7", c5ItemA)] "7" c5ItemB (by decide)).1,
    (c5_dedup_amended.2 [("7", c5ItemA)] "7" c5ItemB (by decide)).2⟩

/-- Claim C5 counterexample: merging two probe results that share internal
id 7 but carry different titles leaves a single MatchSet entry whose
stored title is the *second* one (`"B"`), not the first (`"A"`) — the
stored title does change, refuting first-write-wins.  (The per-category
display counter `counts["root"]` is nonetheless bumped twice.) -/
theorem c5_counterexample :
    (processScan [(⟨.vnone, .vnone, none⟩, some c5ItemA),
                  (⟨.vnone, .vnone, none⟩, some c5ItemB)] []).matched = [("7", c5ItemB)] ∧
      c5ItemB.title = some "B" ∧ c5ItemA.title = some "A" ∧
      (processScan [(⟨.vnone, .vnone, none⟩, some c5ItemA),
                    (⟨.vnone, .vnone, none⟩, some c5ItemB)] []).rootCount = 2 :=
  ⟨rfl, rfl, rfl, rfl⟩

/-- Result-slot assembly of `asyncio.gather` under an arbitrary completion
schedule: `order` lists the task indices in the order in which they
complete (an index may appear once it completes; `gather` itself returns
slots by task index, not completion order).  Each completion writes its
task's result — determined only by the probe function — into its own
slot. -/
def gatherWithSchedule {α β : Type} (probe : α → β) (tasks : List α) (order : List Nat) :
    List (Option β) :=
  order.foldl
    (fun acc i =>
      match tasks[i]? with
      | some t => acc.set i (some (probe t))
      | none => acc)
    (List.replicate tasks.length none)

theorem gather_step_length {α β : Type} (probe : α → β) (tasks : List α) :
    ∀ (order : List Nat) (acc : List (Option β)),
      (order.foldl
        (fun acc i =>
          match tasks[i]? with
          | some t => acc.set i (some (probe t))
          | none => acc) acc).length = acc.length := by
  intro order
  induction order with
  | nil => intro acc; rfl
  | cons i rest ih =>
    intro acc
    rw [List.foldl_cons]
    cases h : tasks[i]? with
    | none => simpa [h] using ih acc
    | some t => simp [h, ih]

theorem gather_get {α β : Type} (probe : α → β) (tasks : List α) :
    ∀ (order : List Nat) (acc : List (Option β)), acc.length = tasks.length →
      ∀ (j : Nat),
        (order.foldl
          (fun acc i =>
            match tasks[i]? with
            | some t => acc.set i (some (probe t))
            | none => acc) acc)[j]? =
          if j ∈ order ∧ j < tasks.length then (tasks[j]?).map (fun t => some (probe t))
          else acc[j]? := by
  intro order
  induction order with
  | nil =>
    intro acc _ j
    simp
  | cons i rest ih =>
    intro acc hacc j
    rw [List.foldl_cons]
    have hlen : (match tasks[i]? with
        | some t => acc.set i (some (probe t))
        | none => acc).length = tasks.length := by
      cases h : tasks[i]? <;> simp [h, hacc]
    rw [ih _ hlen j]
    by_cases hjr : j ∈ rest
    · have h1 : j ∈ rest ∧ j < tasks.length ↔ j ∈ i :: rest ∧ j < tasks.length := by
        simp [List.mem_cons, hjr]
      by_cases hjl : j < tasks.length
      · simp [hjr, hjl]
      · have hjn : acc[j]? = none := List.getElem?_eq_none (by omega)
        cases h : tasks[i]? with
        | none => simp [hjr, hjl, h, hjn]
        | some t =>
          have hjn2 : (acc.set i (some (probe t)))[j]? = none :=
            List.getElem?_eq_none (by simp [hacc]; omega)
          simp [hjr, hjl, h, hjn, hjn2]
    · by_cases hji : j = i
      · subst hji
        by_cases hjl : j < tasks.length
        · have ht : ∃ t, tasks[j]? = some t := by
            simpa [List.getElem?_eq_some_iff] using
              (List.getElem?_eq_getElem hjl ▸ ⟨tasks[j], rfl⟩ :
                ∃ t, tasks[j]? = some t)
          rcases ht with ⟨t, ht⟩
          simp only [ht, hjr, false_and, if_false, List.mem_cons, true_or, hjl, and_true,
            if_true, Option.map_some]
          rw [List.getElem?_set_self]
          · simp [ht]
          · omega
        · have ht : tasks[j]? = none := by
            simpa using List.getElem?_eq_none (by omega)
          simp [ht, hjr, hjl]
      · have hnotin : ¬ j ∈ i :: rest := by simp [List.mem_cons, hji, hjr]
        simp only [hjr, false_and, if_false, hnotin]
        cases h : tasks[i]? with
        | none => rfl
        | some t =>
          rw [List.getElem?_set_ne]
          omega

theorem gather_complete {α β : Type} (probe : α → β) (tasks : List α) (order : List Nat)
    (hcov : ∀ j < tasks.length, j ∈ order) :
    gatherWithSchedule probe tasks order = tasks.map (fun t => some (probe t)) := by
  apply List.ext_getElem?
  intro j
  unfold gatherWithSchedule
  rw [gather_get probe tasks order (List.replicate tasks.length none) (by simp) j]
  by_cases hj : j < tasks.length
  · simp [hcov j hj, hj, List.getElem?_map]
  · have h1 : (List.replicate tasks.length (none : Option β))[j]? = none :=
      List.getElem?_eq_none (by simpa using hj)
    have h2 : (tasks.map (fun t => some (probe t)))[j]? = none :=
      List.getElem?_eq_none (by simpa using hj)
    simp [hj, h1, h2]

/-- Byte-wise `≤` on character lists (lexicographic). -/
def charsLe : List Char → List Char → Bool
  | [], _ => true
  | _ :: _, [] => false
  | a :: as, b :: bs => if a = b then charsLe as bs else decide (a < b)

/-- Lexicographic `≤` on strings (the order "sorted by title" refers to). -/
def strLe (a b : String) : Bool := charsLe a.data b.data

/-- Is a list of titles sorted in nondecreasing lexicographic order? -/
def titlesSorted : List String → Bool
  | [] => true
  | [_] => true
  | a :: b :: rest => strLe a b && titlesSorted (b :: rest)

/-- Claim C4 (corrected), amendment: for every probe batch, the results
collected by `gather` are determined slot-by-slot by each task's own
probe, so the final display is identical for **every** completion order
that completes all tasks, and equals the processing of results in
watchlist input order (movies first, then shows).  The display order is
this input order — it is *not* sorted by title (`c4_counterexample`). -/
theorem c4_display_order_amended (findM findS : String → Option LibItem)
    (movies shows : List MdbItem) (morder sorder : List Nat)
    (hm : ∀ j < movies.length, j ∈ morder) (hs : ∀ j < shows.length, j ∈ sorder) :
    gatherWithSchedule (fun m => (probe_movie findM m).2) movies morder
        = movies.map (fun m => some ((probe_movie findM m).2)) ∧
      gatherWithSchedule (fun s => (probe_show findS s).2) shows sorder
        = shows.map (fun s => some ((probe_show findS s).2)) ∧
      processScan
          (movies.zip ((gatherWithSchedule (fun m => (probe_movie findM m).2) movies
            morder).map (fun o => o.getD none)))
          (shows.zip ((gatherWithSchedule (fun s => (probe_show findS s).2) shows
            sorder).map (fun o => o.getD none)))
        = processScan (movies.zip (movies.map (fun m => (probe_movie findM m).2)))
            (shows.zip (shows.map (fun s => (probe_show findS s).2))) := by
  have h1 := gather_complete (fun m => (probe_movie findM m).2) movies morder hm
  have h2 := gather_complete (fun s => (probe_show findS s).2) shows sorder hs
  refine ⟨h1, h2, ?_⟩
  rw [h1, h2]
  simp [List.map_map, Function.comp_def]

/-- Two watchlist movie candidates for the C4 counterexample, in this
input order. -/
def c4Movies : List MdbItem :=
  [⟨.vstr "tt1", .vnone, some "B-mdb"⟩, ⟨.vstr "tt2", .vnone, some "A-mdb"⟩]

/-- Probe oracle for the C4 counterexample: both candidates are in the
library, under titles `"B"` and `"A"` respectively. -/
def c4Find : String → Option LibItem :=
  fun q =>
    if q == "tt1" then some ⟨.vint 1, some (.vstr "movie"), some "B"⟩
    else if q == "tt2" then some ⟨.vint 2, some (.vstr "movie"), some "A"⟩
    else none

/-- Claim C4 counterexample: the display (root column) lists titles in
watchlist input order `["B", "A"]`, which is not sorted by title — no
sorting step exists anywhere in `on_scan`. -/
theorem c4_counterexample :
    (processScan (c4Movies.zip (c4Movies.map (fun m => (probe_movie c4Find m).2)))
        []).rootTitles = ["B", "A"] ∧
      titlesSorted ["B", "A"] = false :=
  ⟨rfl, rfl⟩

/-- Witness for `c4_display_order_amended` at a concrete batch: two movie
candidates whose probes complete in reversed order `[1, 0]` still yield
the canonical input-order display. -/
theorem c4_witness :
    (∀ j < c4Movies.length, j ∈ [1, 0]) ∧
      processScan
          (c4Movies.zip ((gatherWithSchedule (fun m => (probe_movie c4Find m).2) c4Movies
            [1, 0]).map (fun o => o.getD none)))
          (([] : List MdbItem).zip ((gatherWithSchedule (fun s => (probe_show c4Find s).2)
            ([] : List MdbItem) []).map (fun o => o.getD none)))
        = processScan (c4Movies.zip (c4Movies.map (fun m => (probe_movie c4Find m).2)))
            (([] : List MdbItem).zip (([] : List MdbItem).map
              (fun s => (probe_show c4Find s).2))) :=
  ⟨by intro j hj
      have h2 : j < 2 := by simpa [c4Movies] using hj
      interval_cases j <;> simp,
    (c4_display_order_amended c4Find c4Find c4Movies [] [1, 0] []
      (by intro j hj
          have h2 : j < 2 := by simpa [c4Movies] using hj
          interval_cases j <;> simp)
      (fun j hj => absurd hj (Nat.not_lt_zero j))).2.2⟩

/-- Claim C10 (confirmed): a movie probe with no IMDB id and a show probe
with no TVDB id perform no remote call at all and yield a no-match
result, and every candidate whose probe result is `none` is classified
into the missing column (titles and count, in input order). -/
theorem c10_probe_skip (findM findS : String → Option LibItem) (m s : MdbItem)
    (hm : pyTruthy m.imdb_id = false) (hs : pyTruthy s.tvdb_id = false) :
    probe_movie findM m = ([], none) ∧ probe_show findS s = ([], none) ∧
      (∀ movies shows, (processScan movies shows).missingTitles
          = missContrib "Unknown Movie" movies ++ missContrib "Unknown Show" shows) ∧
      (∀ movies shows, (processScan movies shows).missingCount
          = (missContrib "Unknown Movie" movies).length
            + (missContrib "Unknown Show" shows).length) := by
  refine ⟨by simp [probe_movie, hm], by simp [probe_show, hs], ?_, ?_⟩
  · intro movies shows
    unfold processScan
    rw [foldl_processOne_missing, foldl_processOne_missing]
    simp [scanInit]
  · intro movies shows
    unfold processScan
    rw [foldl_processOne_missingCount, foldl_processOne_missingCount]
    simp [scanInit]

/-- Witness for `c10_probe_skip` at a concrete candidate with no ids: the
probe makes no call, returns no match, and the candidate's title lands in
the missing column. -/
theorem c10_witness :
    pyTruthy (MdbItem.imdb_id ⟨.vnone, .vnone, some "M"⟩) = false ∧
      probe_movie (fun _ => none) ⟨.vnone, .vnone, some "M"⟩ = ([], none) ∧
      (processScan [(⟨.vnone, .vnone, some "M"⟩, none)] []).missingTitles = ["M"] :=
  ⟨by decide,
    (c10_probe_skip (fun _ => none) (fun _ => none) ⟨.vnone, .vnone, some "M"⟩
      ⟨.vnone, .vnone, some "M"⟩ (by decide) (by decide)).1,
    ((c10_probe_skip (fun _ => none) (fun _ => none) ⟨.vnone, .vnone, some "M"⟩
      ⟨.vnone, .vnone, some "M"⟩ (by decide) (by decide)).2.2.1
        [(⟨.vnone, .vnone, some "M"⟩, none)] []).trans rfl⟩

/-! ## Bounded-concurrency probe scheduling (`on_scan`, src/advanced_view.py lines 298-321) -/

/-- The lifecycle of one probe coroutine under the cooperative scheduler:
it has not started, is waiting to enter `async with semaphore`, holds the
semaphore with its remote call in flight, or is finished.  A probe whose
candidate has no external id finishes before ever touching the
semaphore (`probe_movie`/`probe_show` return early). -/
inductive TStatus where
  | notStarted
  | waitingGate
  | inFlight
  | finished
deriving DecidableEq, Repr

/-- Global scheduler state: per-task status plus the free permits of
`asyncio.Semaphore(10)`. -/
structure ProbeSys where
  tasks : List TStatus
  avail : Nat
deriving DecidableEq, Repr

/-- Number of probes whose remote call is currently in flight. -/
def inFlightCount (l : List TStatus) : Nat := l.countP (fun s => s == .inFlight)

/-- One cooperative-scheduler step of the probe batch.  `hasId i` says
whether task `i` carries the external id its probe needs: if not, the
task finishes with no remote call and no semaphore interaction; if so, it
first queues on the semaphore, may enter (consuming a permit) only when a
permit is free, and releases the permit when its call completes. -/
inductive ProbeStep (hasId : List Bool) : ProbeSys → ProbeSys → Prop where
  | skip (s : ProbeSys) (i : Nat) :
      s.tasks[i]? = some .notStarted → hasId[i]? = some false →
      ProbeStep hasId s ⟨s.tasks.set i .finished, s.avail⟩
  | enqueue (s : ProbeSys) (i : Nat) :
      s.tasks[i]? = some .notStarted → hasId[i]? = some true →
      ProbeStep hasId s ⟨s.tasks.set i .waitingGate, s.avail⟩
  | acquire (s : ProbeSys) (i : Nat) :
      s.tasks[i]? = some .waitingGate → 0 < s.avail →
      ProbeStep hasId s ⟨s.tasks.set i .inFlight, s.avail - 1⟩
  | release (s : ProbeSys) (i : Nat) :
      s.tasks[i]? = some .inFlight →
      ProbeStep hasId s ⟨s.tasks.set i .finished, s.avail + 1⟩

/-- States reachable by the probe batch from its start: every task not
yet started and the semaphore initialised with 10 permits
(`asyncio.Semaphore(10)`). -/
inductive ProbeReach (hasId : List Bool) : ProbeSys → Prop where
  | init : ProbeReach hasId ⟨List.replicate hasId.length .notStarted, 10⟩
  | step {s t : ProbeSys} : ProbeReach hasId s → ProbeStep hasId s t → ProbeReach hasId t

theorem countP_set (p : TStatus → Bool) :
    ∀ (l : List TStatus) (i : Nat) (v a : TStatus), l[i]? = some v →
      (l.set i a).countP p + (if p v then 1 else 0) = l.countP p + (if p a then 1 else 0) := by
  intro l
  induction l with
  | nil => intro i v a h; simp at h
  | cons x xs ih =>
    intro i v a h
    cases i with
    | zero =>
      simp only [List.getElem?_cons_zero, Option.some_inj] at h
      subst h
      simp only [List.set_cons_zero, List.countP_cons]
      omega
    | succ n =>
      simp only [List.getElem?_cons_succ] at h
      simp only [List.set_cons_succ, List.countP_cons]
      have := ih n v a h
      omega

theorem probe_invariant (hasId : List Bool) (s : ProbeSys) (h : ProbeReach hasId s) :
    inFlightCount s.tasks + s.avail = 10 := by
  induction h with
  | init => simp [inFlightCount, List.countP_eq_zero.mpr]
  | @step s t hr hstep ih =>
    cases hstep with
    | skip i hi hid =>
      have := countP_set (fun st => st == .inFlight) s.tasks i .notStarted .finished hi
      simp only [inFlightCount] at ih ⊢
      simp [show ((TStatus.notStarted == TStatus.inFlight) = false) from rfl,
        show ((TStatus.finished == TStatus.inFlight) = false) from rfl] at this
      omega
    | enqueue i hi hid =>
      have := countP_set (fun st => st == .inFlight) s.tasks i .notStarted .waitingGate hi
      simp only [inFlightCount] at ih ⊢
      simp [show ((TStatus.notStarted == TStatus.inFlight) = false) from rfl,
        show ((TStatus.waitingGate == TStatus.inFlight) = false) from rfl] at this
      omega
    | acquire i hi hav =>
      have := countP_set (fun st => st == .inFlight) s.tasks i .waitingGate .inFlight hi
      simp only [inFlightCount] at ih ⊢
      simp [show ((TStatus.waitingGate == TStatus.inFlight) = false) from rfl,
        show ((TStatus.inFlight == TStatus.inFlight) = true) from rfl] at this
      omega
    | release i hi =>
      have := countP_set (fun st => st == .inFlight) s.tasks i .inFlight .finished hi
      simp only [inFlightCount] at ih ⊢
      simp [show ((TStatus.inFlight == TStatus.inFlight) = true) from rfl,
        show ((TStatus.finished == TStatus.inFlight) = false) from rfl] at this
      omega

/-- Claim C8 (confirmed): for every probe batch of any size and every
interleaving the cooperative scheduler can produce, the number of probe
calls simultaneously in flight never exceeds the semaphore's 10 permits:
in-flight count plus free permits is invariantly 10. -/
theorem c8_concurrency_cap (hasId : List Bool) (s : ProbeSys) (h : ProbeReach hasId s) :
    inFlightCount s.tasks ≤ 10 := by
  have := probe_invariant hasId s h
  omega

/-- Witness for `c8_concurrency_cap`: a two-task batch after the steps
start-task-0, acquire-semaphore-0 — one probe in flight, within the
cap. -/
theorem c8_witness :
    inFlightCount [TStatus.inFlight, TStatus.notStarted] ≤ 10 :=
  c8_concurrency_cap [true, true] ⟨[TStatus.inFlight, TStatus.notStarted], 9⟩
    (ProbeReach.step
      (ProbeReach.step ProbeReach.init
        (ProbeStep.enqueue ⟨[TStatus.notStarted, TStatus.notStarted], 10⟩ 0 rfl rfl))
      (ProbeStep.acquire ⟨[TStatus.waitingGate, TStatus.notStarted], 10⟩ 0 rfl (by decide)))

/-! ## Manual acquisition session (`_run_manual_scrape`, src/riven_tui.py lines 2004-2117,
and `FileMappingScreen`, src/modals.py lines 552-612) -/

/-- Media kind driving the scrape workflow (`media_type`). -/
inductive MType where
  | movie
  | tv
deriving DecidableEq, Repr

/-- A candidate file of the scrape session
(`session_data["containers"]["files"]` entries). -/
structure FileC where
  file_id : PyVal := .vnone
  filename : PyVal := .vnone
  filesize : Int := 0
  download_url : PyVal := .vnone
deriving DecidableEq, Repr

/-- The response of a successful `start_scrape_session`:
`session_data.get("session_id")` and
`session_data.get("containers", {}).get("files", [])`. -/
structure SessionData where
  session_id : Option String := none
  files : List FileC := []
deriving DecidableEq, Repr

/-- Outcome of one `start_scrape_session` attempt as `_run_manual_scrape`
discriminates it: an error containing `"Torrent is not cached"` (retry
with another stream), any other error or a non-dict response (terminal),
or a session payload. -/
inductive StartRes where
  | notCached
  | failedStart (msg : String)
  | startedWith (sd : SessionData)
deriving DecidableEq, Repr

/-- A remote call issued during the scrape workflow, tagged with the
session id where the endpoint takes one. -/
inductive RCall where
  | startSession (attempt : Nat)
  | parseTitles
  | selectFiles (sid : String)
  | updateAttrs (sid : String)
  | completeSession (sid : String)
  | abortSession (sid : String)
deriving DecidableEq, Repr

/-- Exit taken by `_run_manual_scrape`. -/
inductive Outcome where
  | preStartCancel
  | startFailed
  | noFiles
  | parseFailed
  | mappingCancelled
  | selectFailed
  | finalizeFailed
  | completed
deriving DecidableEq, Repr

/-- How the `while True` stream-selection loop exits. -/
inductive StartExit where
  | cancelled
  | failed (msg : String)
  | started (sd : SessionData)
deriving DecidableEq, Repr

/-- Truthiness of `session_data.get("session_id")` (`if not session_id`). -/
def sidTruthy : Option String → Bool
  | none => false
  | some s => s != ""

/-- The `while True` loop of `_run_manual_scrape` (lines 2036-2051): on
each round the user either cancels the stream-selection screen (loop
exits, no remote call) or picks a stream, after which `start_scrape_session`
is called; a `"Torrent is not cached"` error loops for another pick, any
other error ends the workflow, success leaves the loop with the session
payload.  `sels` scripts the user's picks (an exhausted script behaves as
a cancel, since the screen always eventually returns), `startRes k` is
the backend's answer to the `k`-th start attempt. -/
def startLoop (startRes : Nat → StartRes) : List (Option String) → Nat → List RCall × StartExit
  | [], _ => ([], .cancelled)
  | none :: _, _ => ([], .cancelled)
  | some _ :: rest, k =>
    match startRes k with
    | .notCached =>
      let r := startLoop startRes rest (k + 1)
      (RCall.startSession k :: r.1, r.2)
    | .failedStart m => ([RCall.startSession k], .failed m)
    | .startedWith sd => ([RCall.startSession k], .started sd)

/-- A user interaction with the `FileMappingScreen` modal. -/
inductive MapChoice where
  | confirmMap (m : List (Nat × Nat × FileC))
  | cancelBtn
  | abortBtn
deriving DecidableEq, Repr

/-- Embedding of the `FileMappingScreen` button handlers (src/modals.py
lines 552-612): *Confirm* with a non-empty parsed mapping dismisses with
the mapping, with an empty one the screen stays (`"No files were
mapped"`); *Cancel* dismisses `None` without any remote call; *Abort
Session* calls `abort_scrape_session` — on success it dismisses `None`,
on failure it notifies and the screen stays.  `abortRes k` is the result
of the `k`-th abort attempt; an exhausted script behaves as a cancel. -/
def runMappingScreen (abortRes : Nat → Bool) (sid : Option String) :
    List MapChoice → Nat → List RCall × Option (List (Nat × Nat × FileC))
  | [], _ => ([], none)
  | .cancelBtn :: _, _ => ([], none)
  | .confirmMap m :: rest, k =>
    if m.isEmpty then runMappingScreen abortRes sid rest k
    else ([], some m)
  | .abortBtn :: rest, k =>
    match sid with
    | some s =>
      if s != "" then
        if abortRes k then ([RCall.abortSession s], none)
        else
          let r := runMappingScreen abortRes sid rest (k + 1)
          (RCall.abortSession s :: r.1, r.2)
      else ([], none)
    | none => ([], none)

/-- The finalize sequence shared by the movie and tv paths (src/riven_tui.py
lines 2069-2084 and 2103-2117): `select_scrape_file`, then
`update_scrape_attributes`, then `complete_scrape_session`, in that order.
A `select` failure stops before the other two calls and is notified; the
return value of `update_scrape_attributes` is *discarded* by the code
(`updOk` plays no role below, mirroring the source); a `complete` failure
is notified as a finalization error. -/
def finalizeSeq (sid : String) (selOk updOk compOk : Bool) : List RCall × Outcome :=
  if selOk then
    ([RCall.selectFiles sid, RCall.updateAttrs sid, RCall.completeSession sid],
     if compOk then Outcome.completed else Outcome.finalizeFailed)
  else ([RCall.selectFiles sid], Outcome.selectFailed)

/-- Embedding of `_run_manual_scrape` after stream discovery
(src/riven_tui.py lines 2035-2117): run the stream-selection/start loop;
on a session, check `if not session_id or not containers_files`; then for
a movie call the title parser (result discarded) and finalize on the
largest file; for a show call the title parser (an error aborts the
workflow), run the mapping screen, and finalize on the confirmed mapping.
The trace lists every remote call issued, in order. -/
def runScrape (mt : MType) (sels : List (Option String)) (startRes : Nat → StartRes)
    (parseErr : Option String) (script : List MapChoice) (abortRes : Nat → Bool)
    (selOk updOk compOk : Bool) : List RCall × Outcome :=
  let r0 := startLoop startRes sels 0
  match r0.2 with
  | .cancelled => (r0.1, .preStartCancel)
  | .failed _ => (r0.1, .startFailed)
  | .started sd =>
    if !sidTruthy sd.session_id || sd.files.isEmpty then (r0.1, .noFiles)
    else
      let sid := sd.session_id.getD ""
      match mt with
      | .movie =>
        let f := finalizeSeq sid selOk updOk compOk
        (r0.1 ++ [RCall.parseTitles] ++ f.1, f.2)
      | .tv =>
        match parseErr with
        | some _ => (r0.1 ++ [RCall.parseTitles], .parseFailed)
        | none =>
          let m := runMappingScreen abortRes sd.session_id script 0
          match m.2 with
          | none => (r0.1 ++ [RCall.parseTitles] ++ m.1, .mappingCancelled)
          | some _ =>
            let f := finalizeSeq sid selOk updOk compOk
            (r0.1 ++ [RCall.parseTitles] ++ m.1 ++ f.1, f.2)

/-- Is this call a `complete_scrape_session` call? -/
def isCompleteCall : RCall → Bool
  | .completeSession _ => true
  | _ => false

/-- Is this call an `abort_scrape_session` call? -/
def isAbortCall : RCall → Bool
  | .abortSession _ => true
  | _ => false

/-- Does the trace contain a `complete_scrape_session` call? -/
def hasCompleteCall (tr : List RCall) : Bool := tr.any isCompleteCall

/-- Does the trace contain an `abort_scrape_session` call? -/
def hasAbortCall (tr : List RCall) : Bool := tr.any isAbortCall

/-- The live session of a run, if the start loop produced a session whose
id is truthy and whose candidate-file list is non-empty. -/
def liveSession (startRes : Nat → StartRes) (sels : List (Option String)) : Option String :=
  match (startLoop startRes sels 0).2 with
  | .started sd =>
    if !sidTruthy sd.session_id || sd.files.isEmpty then none
    else some (sd.session_id.getD "")
  | _ => none

/-- Does the run reach the tv mapping screen? -/
def reachesMapping (mt : MType) (sels : List (Option String)) (startRes : Nat → StartRes)
    (parseErr : Option String) : Bool :=
  mt == .tv && (liveSession startRes sels).isSome && parseErr.isNone

/-- Does the run reach the finalize sequence? -/
def reachesFinalize (mt : MType) (sels : List (Option String)) (startRes : Nat → StartRes)
    (parseErr : Option String) (script : List MapChoice) (abortRes : Nat → Bool) : Bool :=
  match mt with
  | .movie => (liveSession startRes sels).isSome
  | .tv =>
    reachesMapping mt sels startRes parseErr &&
      ((runMappingScreen abortRes (liveSession startRes sels) script 0).2).isSome

theorem startLoop_calls (startRes : Nat → StartRes) :
    ∀ (sels : List (Option String)) (k : Nat),
      hasCompleteCall (startLoop startRes sels k).1 = false ∧
        hasAbortCall (startLoop startRes sels k).1 = false := by
  intro sels
  induction sels with
  | nil => intro k; simp [startLoop, hasCompleteCall, hasAbortCall]
  | cons hd rest ih =>
    intro k
    cases hd with
    | none => simp [startLoop, hasCompleteCall, hasAbortCall]
    | some mag =>
      cases h : startRes k with
      | notCached =>
        have := ih (k + 1)
        simp only [startLoop, h]
        simp only [hasCompleteCall, hasAbortCall, List.any_cons] at this ⊢
        simp [this.1, this.2, isCompleteCall, isAbortCall]
      | failedStart m => simp [startLoop, h, hasCompleteCall, hasAbortCall, isCompleteCall, isAbortCall]
      | startedWith sd => simp [startLoop, h, hasCompleteCall, hasAbortCall, isCompleteCall, isAbortCall]

theorem mapping_calls_no_complete (abortRes : Nat → Bool) (sid : Option String) :
    ∀ (script : List MapChoice) (k : Nat),
      hasCompleteCall (runMappingScreen abortRes sid script k).1 = false := by
  intro script
  induction script with
  | nil => intro k; simp [runMappingScreen, hasCompleteCall]
  | cons c rest ih =>
    intro k
    cases c with
    | cancelBtn => simp [runMappingScreen, hasCompleteCall]
    | confirmMap m =>
      by_cases hm : m.isEmpty
      · simpa [runMappingScreen, hm] using ih k
      · simp [runMappingScreen, hm, hasCompleteCall]
    | abortBtn =>
      cases sid with
      | none => simp [runMappingScreen, hasCompleteCall]
      | some s =>
        by_cases hs : s != ""
        · by_cases ha : abortRes k
          · simp [runMappingScreen, hs, ha, hasCompleteCall, isCompleteCall]
          · have := ih (k + 1)
            simp only [runMappingScreen, hs, ha, if_true, if_false, Bool.false_eq_true]
            simp only [hasCompleteCall, List.any_cons] at this ⊢
            simp [this, isCompleteCall]
        · simp [runMappingScreen, hs, hasCompleteCall]

theorem finalizeSeq_hasComplete (sid : String) (selOk updOk compOk : Bool) :
    hasCompleteCall (finalizeSeq sid selOk updOk compOk).1 = selOk := by
  cases selOk <;> simp [finalizeSeq, hasCompleteCall, isCompleteCall]

theorem finalizeSeq_hasAbort (sid : String) (selOk updOk compOk : Bool) :
    hasAbortCall (finalizeSeq sid selOk updOk compOk).1 = false := by
  cases selOk <;> simp [finalizeSeq, hasAbortCall, isAbortCall]

theorem sidTruthy_getD (o : Option String) (h : sidTruthy o = true) : some (o.getD "") = o := by
  cases o with
  | none => simp [sidTruthy] at h
  | some s => rfl

theorem hasCompleteCall_append (a b : List RCall) :
    hasCompleteCall (a ++ b) = (hasCompleteCall a || hasCompleteCall b) := by
  simp [hasCompleteCall]

theorem hasAbortCall_append (a b : List RCall) :
    hasAbortCall (a ++ b) = (hasAbortCall a || hasAbortCall b) := by
  simp [hasAbortCall]

theorem hasCompleteCall_cons (c : RCall) (tr : List RCall) :
    hasCompleteCall (c :: tr) = (isCompleteCall c || hasCompleteCall tr) := by
  simp [hasCompleteCall]

theorem hasAbortCall_cons (c : RCall) (tr : List RCall) :
    hasAbortCall (c :: tr) = (isAbortCall c || hasAbortCall tr) := by
  simp [hasAbortCall]

/-- Claim C1 (corrected), amendment: across every run of the controller,
a `complete_session` call occurs exactly when the finalize stage runs and
`select_files` succeeded, and an `abort_session` call occurs exactly when
the tv mapping screen is reached and its *Abort Session* button issues
one — no other exit path releases the remote session.  In particular the
exits with a live remote session taken by cancel-at-mapping, title-parse
failure, missing candidate files, and `select_files` failure issue
neither `complete_session` nor `abort_session` before the local state is
dropped (`c1_counterexample`); the session id is not used in any remote
call after the run's trace ends. -/
theorem c1_session_release_amended (mt : MType) (sels : List (Option String))
    (startRes : Nat → StartRes) (parseErr : Option String) (script : List MapChoice)
    (abortRes : Nat → Bool) (selOk updOk compOk : Bool) :
    hasCompleteCall (runScrape mt sels startRes parseErr script abortRes selOk updOk compOk).1
        = (reachesFinalize mt sels startRes parseErr script abortRes && selOk) ∧
      hasAbortCall (runScrape mt sels startRes parseErr script abortRes selOk updOk compOk).1
        = (reachesMapping mt sels startRes parseErr
            && hasAbortCall (runMappingScreen abortRes (liveSession startRes sels) script 0).1) := by
  obtain ⟨hslC, hslA⟩ := startLoop_calls startRes sels 0
  have hCparse : hasCompleteCall [RCall.parseTitles] = false := rfl
  have hAparse : hasAbortCall [RCall.parseTitles] = false := rfl
  cases mt with
  | movie =>
    simp only [runScrape, liveSession, reachesFinalize, reachesMapping]
    cases h0 : (startLoop startRes sels 0).2 with
    | cancelled => simp [hslC, hslA]
    | failed m => simp [hslC, hslA]
    | started sd =>
      by_cases hg : (!sidTruthy sd.session_id || sd.files.isEmpty) = true
      · simp [hg, hslC, hslA]
      · simp [hg, hslC, hslA, hCparse, hAparse, hasCompleteCall_append, hasAbortCall_append,
          hasCompleteCall_cons, hasAbortCall_cons,
          finalizeSeq_hasComplete, finalizeSeq_hasAbort,
          show isCompleteCall RCall.parseTitles = false from rfl,
          show isAbortCall RCall.parseTitles = false from rfl,
          show (MType.movie == MType.tv) = false from rfl]
  | tv =>
    simp only [runScrape, liveSession, reachesFinalize, reachesMapping]
    cases h0 : (startLoop startRes sels 0).2 with
    | cancelled => simp [hslC, hslA]
    | failed m => simp [hslC, hslA]
    | started sd =>
      by_cases hg : (!sidTruthy sd.session_id || sd.files.isEmpty) = true
      · simp [hg, hslC, hslA]
      · have hst : sidTruthy sd.session_id = true := by
          cases hx : sidTruthy sd.session_id
          · rw [hx] at hg; simp at hg
          · rfl
        have hsid : some (sd.session_id.getD "") = sd.session_id := sidTruthy_getD _ hst
        cases hp : parseErr with
        | some e =>
          simp [hg, hp, hslC, hslA, hCparse, hAparse, hasCompleteCall_append,
            hasAbortCall_append]
        | none =>
          cases hm2 : (runMappingScreen abortRes sd.session_id script 0).2 with
          | none =>
            have hiso : sd.session_id.isSome = true := by
              cases hx : sd.session_id
              · rw [hx] at hst; simp [sidTruthy] at hst
              · rfl
            simp [hg, hp, hslC, hslA, hsid, hiso, hm2, hCparse, hAparse, hasCompleteCall_append,
              hasAbortCall_append, hasCompleteCall_cons, hasAbortCall_cons,
              mapping_calls_no_complete,
              show isCompleteCall RCall.parseTitles = false from rfl,
              show isAbortCall RCall.parseTitles = false from rfl,
              show (MType.tv == MType.tv) = true from rfl]
          | some mp =>
            have hiso : sd.session_id.isSome = true := by
              cases hx : sd.session_id
              · rw [hx] at hst; simp [sidTruthy] at hst
              · rfl
            simp [hg, hp, hslC, hslA, hsid, hiso, hm2, hCparse, hAparse, hasCompleteCall_append,
              hasAbortCall_append, hasCompleteCall_cons, hasAbortCall_cons,
              mapping_calls_no_complete, finalizeSeq_hasComplete, finalizeSeq_hasAbort,
              show isCompleteCall RCall.parseTitles = false from rfl,
              show isAbortCall RCall.parseTitles = false from rfl,
              show (MType.tv == MType.tv) = true from rfl]

/-- The candidate file used in the concrete scrape runs below. -/
def c1File : FileC := { file_id := .vint 1, filename := .vstr "e1.mkv", filesize := 100 }

/-- Start oracle for the concrete scrape runs: the first attempt succeeds
with session id `"s1"` and one candidate file. -/
def c1Start : Nat → StartRes :=
  fun _ => .startedWith { session_id := some "s1", files := [c1File] }

/-- Claim C1 counterexample: a tv run whose `start_scrape_session`
succeeded (live remote session `"s1"`), where the user presses *Cancel*
on the file-mapping screen.  The run exits discarding the local session
state with a trace of only `start_session` and `parse_titles` — neither
`complete_session` nor `abort_session` is ever issued for `"s1"`,
refuting the claim that every such exit path releases the remote
session. -/
theorem c1_counterexample :
    (runScrape .tv [some "magnet"] c1Start none [.cancelBtn] (fun _ => true) true true true).2
        = .mappingCancelled ∧
      liveSession c1Start [some "magnet"] = some "s1" ∧
      (runScrape .tv [some "magnet"] c1Start none [.cancelBtn] (fun _ => true) true true true).1
        = [RCall.startSession 0, RCall.parseTitles] ∧
      hasCompleteCall
        (runScrape .tv [some "magnet"] c1Start none [.cancelBtn] (fun _ => true) true true true).1
        = false ∧
      hasAbortCall
        (runScrape .tv [some "magnet"] c1Start none [.cancelBtn] (fun _ => true) true true true).1
        = false :=
  ⟨rfl, rfl, rfl, rfl, rfl⟩

/-- Claim C2 (corrected), amendment: whenever the finalize stage runs,
the three remote calls are issued in the fixed order `select_files`,
`update_attributes`, `complete_session`; a `select_files` failure is
terminal and surfaced before the other two calls, and a
`complete_session` failure is terminal and surfaced as a finalization
error — but the result of `update_attributes` is discarded: its failure
neither stops the sequence nor is surfaced, and the run can even end
`completed` (`c2_counterexample`). -/
theorem c2_finalize_order_amended (sid : String) (updOk compOk selOk : Bool) :
    (finalizeSeq sid true updOk compOk).1
        = [RCall.selectFiles sid, RCall.updateAttrs sid, RCall.completeSession sid] ∧
      (finalizeSeq sid true updOk compOk).2
        = (if compOk then Outcome.completed else Outcome.finalizeFailed) ∧
      finalizeSeq sid false updOk compOk = ([RCall.selectFiles sid], Outcome.selectFailed) ∧
      finalizeSeq sid selOk updOk compOk = finalizeSeq sid selOk true compOk :=
  ⟨by simp [finalizeSeq], by simp [finalizeSeq], by simp [finalizeSeq], rfl⟩

/-- Claim C2 counterexample: a movie finalize run in which
`update_attributes` fails (`updOk = false`) while the other calls
succeed.  The controller still issues `complete_session` and the run ends
`completed` — the user is told the scrape succeeded — so a failure of one
of the three fixed calls is neither terminal `Failed` nor surfaced. -/
theorem c2_counterexample :
    (runScrape .movie [some "magnet"] c1Start none [] (fun _ => true) true false true).2
        = .completed ∧
      (runScrape .movie [some "magnet"] c1Start none [] (fun _ => true) true false true).1
        = [RCall.startSession 0, RCall.parseTitles, RCall.selectFiles "s1",
           RCall.updateAttrs "s1", RCall.completeSession "s1"] :=
  ⟨rfl, rfl⟩
